import Mathlib

/-
  Verification of the Breakout-style game engine (src/lib/gameEngine.ts).

  The engine is shallowly embedded: JavaScript numbers are modelled as real
  numbers (the code uses Math.sqrt, whose exact values are irrational), the
  block array as a list, the class fields as a record, and each method as a
  pure function from engine state to engine state.  Event handlers are
  modelled as a step function on an input-event type, and the set of states
  the real system can be in is captured by an inductive reachability
  predicate over the constructor, the public methods and the input events.
-/

namespace Breakout

noncomputable section

/-- Position record from src/types/game.ts. -/
structure Position where
  x : ℝ
  y : ℝ

/-- Velocity record from src/types/game.ts. -/
structure Velocity where
  x : ℝ
  y : ℝ

/-- Ball record from src/types/game.ts. -/
structure Ball where
  position : Position
  velocity : Velocity
  radius : ℝ
  color : String

/-- Paddle record from src/types/game.ts. -/
structure Paddle where
  position : Position
  width : ℝ
  height : ℝ
  speed : ℝ
  color : String

/-- Block record from src/types/game.ts. -/
structure Block where
  position : Position
  width : ℝ
  height : ℝ
  color : String
  destroyed : Bool
  points : ℝ

/-- GameState record from src/types/game.ts. -/
structure GameState where
  isRunning : Bool
  isPaused : Bool
  score : ℝ
  lives : ℤ
  level : ℕ
  ball : Ball
  paddle : Paddle
  blocks : List Block

/-- Controls record from src/types/game.ts; touchX is optional. -/
structure Controls where
  leftPressed : Bool
  rightPressed : Bool
  touchX : Option ℝ

/-- GameConfig record from src/types/game.ts. -/
structure GameConfig where
  canvasWidth : ℝ
  canvasHeight : ℝ
  ballSpeed : ℝ
  paddleSpeed : ℝ
  maxLives : ℤ

/-- GameEngine.updateConfig: derives the configuration from the canvas
dimensions (gameEngine.ts lines 29-37). -/
def updateConfig (w h : ℝ) : GameConfig :=
  { canvasWidth := w, canvasHeight := h, ballSpeed := 6, paddleSpeed := 10, maxLives := 3 }

/-- The 8-entry color palette of generateBlocks (gameEngine.ts lines 83-86). -/
def blockColors : List String :=
  ["#ff6b6b", "#feca57", "#48cae4", "#06ffa5", "#ff9ff3", "#f38ba8", "#a6e3a1", "#fab387"]

/-- GameEngine.generateBlocks (gameEngine.ts lines 72-105).  The double for
loop (rows outer, cols inner) is rendered as flatMap over ranges; the column
count is a JavaScript Math.floor, so it is an integer that can be negative
for very small widths, in which case the inner loop body never runs. -/
def generateBlocks (config : GameConfig) (level : ℕ) : List Block :=
  let blockWidth : ℝ := 80
  let blockHeight : ℝ := 25
  let padding : ℝ := 5
  let offsetTop : ℝ := 60
  let offsetLeft : ℝ := 35
  let rows : ℕ := min (3 + level / 2) 8
  let cols : ℤ := ⌊(config.canvasWidth - 2 * offsetLeft) / (blockWidth + padding)⌋
  (List.range rows).flatMap (fun (r : ℕ) =>
    (List.range cols.toNat).map (fun (c : ℕ) =>
      { position := { x := offsetLeft + c * (blockWidth + padding),
                      y := offsetTop + r * (blockHeight + padding) },
        width := blockWidth,
        height := blockHeight,
        color := blockColors[r % blockColors.length]!,
        destroyed := false,
        points := ((rows : ℝ) - r) * 10 }))

/-- GameEngine.initializeGame (gameEngine.ts lines 39-70). -/
def initializeGame (config : GameConfig) : GameState :=
  let ballRadius : ℝ := 8
  let paddleWidth : ℝ := 100
  let paddleHeight : ℝ := 15
  let paddleX := (config.canvasWidth - paddleWidth) / 2
  let paddleY := config.canvasHeight - paddleHeight - 20
  { isRunning := false,
    isPaused := false,
    score := 0,
    lives := config.maxLives,
    level := 1,
    ball := { position := { x := config.canvasWidth / 2, y := paddleY - ballRadius - 5 },
              velocity := { x := 3, y := -3 },
              radius := ballRadius,
              color := "#ff6b6b" },
    paddle := { position := { x := paddleX, y := paddleY },
                width := paddleWidth,
                height := paddleHeight,
                speed := config.paddleSpeed,
                color := "#4ecdc4" },
    blocks := generateBlocks config 1 }

/-- The mutable fields of the GameEngine class: configuration, game state,
control state and the private touchStartY field.  The canvas itself, the
drawing context, the animation-frame id and the listener bookkeeping have no
effect on the simulation state and are omitted. -/
structure Engine where
  config : GameConfig
  gameState : GameState
  controls : Controls
  touchStartY : ℝ

/-- The GameEngine constructor (gameEngine.ts lines 14-27): derive the
configuration from the canvas dimensions, clear the control flags and build
the initial game state. -/
def mkEngine (w h : ℝ) : Engine :=
  let config := updateConfig w h
  { config := config,
    gameState := initializeGame config,
    controls := { leftPressed := false, rightPressed := false, touchX := none },
    touchStartY := 0 }

/-- GameEngine.isColliding (gameEngine.ts lines 309-322): circle versus
axis-aligned rectangle with rounded-corner fallback, with the early returns
rendered as a chain of conditionals. -/
def isColliding (ball : Ball) (rectPos : Position) (rectWidth rectHeight : ℝ) : Bool :=
  let distX := |ball.position.x - rectPos.x - rectWidth / 2|
  let distY := |ball.position.y - rectPos.y - rectHeight / 2|
  if distX > rectWidth / 2 + ball.radius then false
  else if distY > rectHeight / 2 + ball.radius then false
  else if distX ≤ rectWidth / 2 then true
  else if distY ≤ rectHeight / 2 then true
  else decide ((distX - rectWidth / 2) ^ 2 + (distY - rectHeight / 2) ^ 2 ≤ ball.radius ^ 2)

/-- Magnitude of a velocity vector, as computed by Math.sqrt(x*x + y*y) in
the source. -/
def speed (v : Velocity) : ℝ :=
  Real.sqrt (v.x ^ 2 + v.y ^ 2)

/-- GameEngine.updatePaddle (gameEngine.ts lines 204-222). -/
def updatePaddle (e : Engine) : Engine :=
  let paddle := e.gameState.paddle
  let x1 :=
    match e.controls.touchX with
    | some t => t - paddle.width / 2
    | none =>
        let xa := if e.controls.leftPressed then paddle.position.x - paddle.speed
                  else paddle.position.x
        if e.controls.rightPressed then xa + paddle.speed else xa
  let x2 := max 0 (min (e.config.canvasWidth - paddle.width) x1)
  { e with gameState := { e.gameState with
      paddle := { paddle with position := { paddle.position with x := x2 } } } }

/-- GameEngine.resetBall (gameEngine.ts lines 333-342): ball re-centered
over the paddle with velocity (3, -3). -/
def resetBall (e : Engine) : Engine :=
  let paddleX := e.gameState.paddle.position.x
  let paddleY := e.gameState.paddle.position.y
  { e with gameState := { e.gameState with
      ball := { e.gameState.ball with
        position := { x := paddleX + e.gameState.paddle.width / 2,
                      y := paddleY - e.gameState.ball.radius - 5 },
        velocity := { x := 3, y := -3 } } } }

/-- GameEngine.gameOver (gameEngine.ts lines 373-375). -/
def gameOver (e : Engine) : Engine :=
  { e with gameState := { e.gameState with isRunning := false } }

/-- GameEngine.loseLife (gameEngine.ts lines 324-331): decrement lives, then
either reset the ball or end the run. -/
def loseLife (e : Engine) : Engine :=
  let e1 := { e with gameState := { e.gameState with lives := e.gameState.lives - 1 } }
  if e1.gameState.lives > 0 then resetBall e1 else gameOver e1

/-- GameEngine.updateBall (gameEngine.ts lines 224-245): advance the ball by
its velocity, reflect and clamp on the side and top walls, and trigger a
life loss when the ball leaves through the bottom. -/
def updateBall (e : Engine) : Engine :=
  let b := e.gameState.ball
  let px1 := b.position.x + b.velocity.x
  let py1 := b.position.y + b.velocity.y
  let hitX : Prop := px1 ≤ b.radius ∨ px1 ≥ e.config.canvasWidth - b.radius
  let vx2 := if hitX then -b.velocity.x else b.velocity.x
  let px2 := if hitX then max b.radius (min (e.config.canvasWidth - b.radius) px1) else px1
  let hitY : Prop := py1 ≤ b.radius
  let vy2 := if hitY then -b.velocity.y else b.velocity.y
  let py2 := if hitY then b.radius else py1
  let e2 := { e with gameState := { e.gameState with
      ball := { b with position := { x := px2, y := py2 },
                       velocity := { x := vx2, y := vy2 } } } }
  if py2 ≥ e.config.canvasHeight + b.radius then loseLife e2 else e2

/-- The paddle-collision half of GameEngine.checkCollisions (gameEngine.ts
lines 251-268): only when the ball is moving downward, force the vertical
velocity upward, derive the horizontal component from the hit offset clamped
to [-1, 1] and scaled by 5, rescale the vector to the configured ball speed,
and reposition the ball just above the paddle. -/
def paddleStep (e : Engine) : Engine :=
  let ball := e.gameState.ball
  let paddle := e.gameState.paddle
  if isColliding ball paddle.position paddle.width paddle.height = true ∧
     ball.velocity.y > 0 then
    let vy1 := -|ball.velocity.y|
    let paddleCenter := paddle.position.x + paddle.width / 2
    let hitPos := max (-1) (min 1 ((ball.position.x - paddleCenter) / (paddle.width / 2)))
    let vx1 := hitPos * 5
    let sp := Real.sqrt (vx1 * vx1 + vy1 * vy1)
    let targetSpeed := e.config.ballSpeed
    { e with gameState := { e.gameState with
        ball := { ball with
          velocity := { x := vx1 / sp * targetSpeed, y := vy1 / sp * targetSpeed },
          position := { ball.position with y := paddle.position.y - ball.radius - 2 } } } }
  else e

/-- The test applied to each block in the collision loop (gameEngine.ts line
273): not yet destroyed and overlapping the ball. -/
def blockHit (ball : Ball) (b : Block) : Bool :=
  !b.destroyed && isColliding ball b.position b.width b.height

/-- The reflection applied to the ball when a block is hit (gameEngine.ts
lines 277-302): the side is chosen from the pre-move ball position. -/
def reflectBlock (ball : Ball) (b : Block) : Ball :=
  let ballPrevX := ball.position.x - ball.velocity.x
  let ballPrevY := ball.position.y - ball.velocity.y
  let blockLeft := b.position.x
  let blockRight := b.position.x + b.width
  let blockTop := b.position.y
  let blockBottom := b.position.y + b.height
  let fromLeft : Prop := ballPrevX < blockLeft
  let fromRight : Prop := ballPrevX > blockRight
  let fromTop : Prop := ballPrevY < blockTop
  let fromBottom : Prop := ballPrevY > blockBottom
  if fromLeft ∨ fromRight then
    { ball with velocity := { ball.velocity with x := -ball.velocity.x },
                position := { ball.position with
                  x := if fromLeft then blockLeft - ball.radius else blockRight + ball.radius } }
  else if fromTop ∨ fromBottom then
    { ball with velocity := { ball.velocity with y := -ball.velocity.y },
                position := { ball.position with
                  y := if fromTop then blockTop - ball.radius else blockBottom + ball.radius } }
  else
    { ball with velocity := { x := -ball.velocity.x, y := -ball.velocity.y } }

/-- The block-collision loop of GameEngine.checkCollisions (gameEngine.ts
lines 271-306): scan the blocks in stored order; at the first live
overlapping block, mark it destroyed, add its points to the score, reflect
the ball and stop (the loop breaks).  Returns the updated ball, score and
block list. -/
def blockPass (ball : Ball) (score : ℝ) : List Block → Ball × ℝ × List Block
  | [] => (ball, score, [])
  | b :: rest =>
    if blockHit ball b = true then
      (reflectBlock ball b, score + b.points, { b with destroyed := true } :: rest)
    else
      let r := blockPass ball score rest
      (r.1, r.2.1, b :: r.2.2)

/-- The block half of GameEngine.checkCollisions folded back into the engine
state. -/
def blockStep (e : Engine) : Engine :=
  let r := blockPass e.gameState.ball e.gameState.score e.gameState.blocks
  { e with gameState := { e.gameState with ball := r.1, score := r.2.1, blocks := r.2.2 } }

/-- GameEngine.checkCollisions (gameEngine.ts lines 247-307): paddle
collision first, then the block loop. -/
def checkCollisions (e : Engine) : Engine :=
  blockStep (paddleStep e)

/-- GameEngine.checkGameOver (gameEngine.ts lines 344-348). -/
def checkGameOver (e : Engine) : Engine :=
  if e.gameState.lives ≤ 0 then gameOver e else e

/-- GameEngine.nextLevel (gameEngine.ts lines 357-371): bump the level,
regenerate the blocks, reset the ball, then scale the (freshly reset)
velocity from its magnitude to that magnitude plus 0.2. -/
def nextLevel (e : Engine) : Engine :=
  let lvl := e.gameState.level + 1
  let e1 := { e with gameState := { e.gameState with
      level := lvl, blocks := generateBlocks e.config lvl } }
  let e2 := resetBall e1
  let v := e2.gameState.ball.velocity
  let currentSpeed := Real.sqrt (v.x ^ 2 + v.y ^ 2)
  let newSpeed := currentSpeed + 0.2
  { e2 with gameState := { e2.gameState with
      ball := { e2.gameState.ball with
        velocity := { x := v.x / currentSpeed * newSpeed,
                      y := v.y / currentSpeed * newSpeed } } } }

/-- GameEngine.checkLevelComplete (gameEngine.ts lines 350-355). -/
def checkLevelComplete (e : Engine) : Engine :=
  if (e.gameState.blocks.filter (fun b => !b.destroyed)).length = 0 then nextLevel e else e

/-- GameEngine.update (gameEngine.ts lines 194-202): a no-op unless running
and not paused; otherwise paddle, ball, collisions, game-over check, level
check, in that order.  The deltaTime argument is accepted and ignored, as in
the source. -/
def update (deltaTime : ℝ) (e : Engine) : Engine :=
  if e.gameState.isRunning = false ∨ e.gameState.isPaused = true then e
  else checkLevelComplete (checkGameOver (checkCollisions (updateBall (updatePaddle e))))

/-- GameEngine.start (gameEngine.ts lines 693-700): only acts while not
already running; the frame-loop scheduling has no state effect beyond the
flags and is omitted. -/
def start (e : Engine) : Engine :=
  if e.gameState.isRunning = false then
    { e with gameState := { e.gameState with isRunning := true, isPaused := false } }
  else e

/-- GameEngine.pause (gameEngine.ts lines 702-704). -/
def pause (e : Engine) : Engine :=
  { e with gameState := { e.gameState with isPaused := true } }

/-- GameEngine.resume (gameEngine.ts lines 706-708). -/
def resume (e : Engine) : Engine :=
  { e with gameState := { e.gameState with isPaused := false } }

/-- GameEngine.reset (gameEngine.ts lines 710-716): rebuild the game state
from the current configuration; rendering and frame cancellation have no
state effect. -/
def reset (e : Engine) : Engine :=
  { e with gameState := initializeGame e.config }

/-- GameEngine.updateCanvasSize (gameEngine.ts lines 722-744): recompute the
configuration from the new canvas dimensions, clamp the paddle and ball into
the new bounds, and regenerate the blocks when the level number is truthy
(nonzero). -/
def updateCanvasSize (w h : ℝ) (e : Engine) : Engine :=
  let config := updateConfig w h
  let paddle := e.gameState.paddle
  let paddle1 := { paddle with position := { paddle.position with
      x := min paddle.position.x (config.canvasWidth - paddle.width) } }
  let ball := e.gameState.ball
  let ball1 := { ball with position := { ball.position with
      x := max ball.radius (min (config.canvasWidth - ball.radius) ball.position.x) } }
  let blocks1 := if e.gameState.level ≠ 0 then generateBlocks config e.gameState.level
                 else e.gameState.blocks
  { e with config := config,
           gameState := { e.gameState with paddle := paddle1, ball := ball1, blocks := blocks1 } }

/-- The input events consumed by the listeners registered in
GameEngine.setupEventListeners (gameEngine.ts lines 107-187).  Positional
events carry the client coordinate together with the bounding rectangle data
the handler reads; a touch-move carries the (possibly empty) touch list. -/
inductive InputEvent where
  | keyDown (code : String)
  | keyUp (code : String)
  | touchStart (clientX clientY rectLeft rectWidth : ℝ)
  | touchMove (touches : List ℝ) (rectLeft rectWidth : ℝ)
  | touchEnd
  | mouseMove (clientX rectLeft rectWidth : ℝ)
  | click

/-- The event handlers of GameEngine.setupEventListeners (gameEngine.ts
lines 107-187), as one step function.  The scale factor is
canvas.width / rect.width, and canvas.width is mirrored in
config.canvasWidth. -/
def handleEvent (e : Engine) (ev : InputEvent) : Engine :=
  match ev with
  | .keyDown code =>
      let c1 := if code = "ArrowLeft" ∨ code = "KeyA" then
                  { e.controls with leftPressed := true } else e.controls
      let c2 := if code = "ArrowRight" ∨ code = "KeyD" then
                  { c1 with rightPressed := true } else c1
      let e2 := { e with controls := c2 }
      if code = "Space" then
        if e2.gameState.isRunning = false then start e2
        else if e2.gameState.isPaused = true then resume e2
        else pause e2
      else e2
  | .keyUp code =>
      let c1 := if code = "ArrowLeft" ∨ code = "KeyA" then
                  { e.controls with leftPressed := false } else e.controls
      let c2 := if code = "ArrowRight" ∨ code = "KeyD" then
                  { c1 with rightPressed := false } else c1
      { e with controls := c2 }
  | .touchStart clientX clientY rectLeft rectWidth =>
      let scaleX := e.config.canvasWidth / rectWidth
      let e2 := { e with
        controls := { e.controls with touchX := some ((clientX - rectLeft) * scaleX) },
        touchStartY := clientY }
      if e2.gameState.isRunning = false then start e2 else e2
  | .touchMove touches rectLeft rectWidth =>
      match touches with
      | [] => e
      | t :: _ =>
          let scaleX := e.config.canvasWidth / rectWidth
          { e with controls := { e.controls with touchX := some ((t - rectLeft) * scaleX) } }
  | .touchEnd =>
      { e with controls := { e.controls with touchX := none } }
  | .mouseMove clientX rectLeft rectWidth =>
      let scaleX := e.config.canvasWidth / rectWidth
      { e with controls := { e.controls with touchX := some ((clientX - rectLeft) * scaleX) } }
  | .click =>
      if e.gameState.isRunning = false then start e else e

/-- The engine states the real system can be in: the constructor on a canvas
of positive dimensions, followed by any interleaving of frame updates,
public lifecycle calls and input events. -/
inductive Reachable : Engine → Prop where
  | construct (w h : ℝ) : 0 < w → 0 < h → Reachable (mkEngine w h)
  | step_update (dt : ℝ) (e : Engine) : Reachable e → Reachable (update dt e)
  | step_start (e : Engine) : Reachable e → Reachable (start e)
  | step_pause (e : Engine) : Reachable e → Reachable (pause e)
  | step_resume (e : Engine) : Reachable e → Reachable (resume e)
  | step_reset (e : Engine) : Reachable e → Reachable (reset e)
  | step_resize (w h : ℝ) (e : Engine) :
      0 < w → 0 < h → Reachable e → Reachable (updateCanvasSize w h e)
  | step_event (ev : InputEvent) (e : Engine) : Reachable e → Reachable (handleEvent e ev)

/-- Control state as initialized in the constructor. -/
def controls0 : Controls :=
  { leftPressed := false, rightPressed := false, touchX := none }

/-- The block grid of level 1 on a 160 by 120 canvas: one column, three rows. -/
def blocks160 : List Block :=
  generateBlocks (updateConfig 160 120) 1

/-- A ball with the default radius and color at a given position and
velocity, used to spell out concrete engine states. -/
def trBall (x y vx vy : ℝ) : Ball :=
  { position := { x := x, y := y }, velocity := { x := vx, y := vy },
    radius := 8, color := "#ff6b6b" }

/-- The paddle after the engine built on an 800 by 600 canvas is resized to
160 by 120: clamped to x = 60, still at its original y = 565, which now lies
below the bottom of the canvas. -/
def trPaddle : Paddle :=
  { position := { x := 60, y := 565 }, width := 100, height := 15, speed := 10,
    color := "#4ecdc4" }

/-- A family of engine states on the 160 by 120 canvas, differing in the
running flag, the lives counter and the ball. -/
def trState (run : Bool) (lives : ℤ) (b : Ball) : Engine :=
  { config := updateConfig 160 120,
    gameState :=
      { isRunning := run, isPaused := false, score := 0, lives := lives,
        level := 1, ball := b, paddle := trPaddle, blocks := blocks160 },
    controls := controls0,
    touchStartY := 0 }

/-- A block that has already been destroyed. -/
def deadBlock : Block :=
  { position := { x := 35, y := 60 }, width := 80, height := 25,
    color := "#ff6b6b", destroyed := true, points := 30 }

/-- A running engine state on the 800 by 600 canvas whose single block is
destroyed and whose ball moves horizontally with speed 6. -/
def clearedEngine : Engine :=
  { config := updateConfig 800 600,
    gameState :=
      { isRunning := false, isPaused := false, score := 0, lives := 3,
        level := 1,
        ball := trBall 400 300 6 0,
        paddle :=
          { position := { x := 350, y := 565 }, width := 100, height := 15,
            speed := 10, color := "#4ecdc4" },
        blocks := [deadBlock] },
    controls := controls0,
    touchStartY := 0 }

/-- The cleared engine with the running flag set. -/
def clearedRunning : Engine :=
  { clearedEngine with gameState := { clearedEngine.gameState with isRunning := true } }

/-- A game state whose level counter is zero and whose block list contains a
destroyed block. -/
def levelZeroEngine : Engine :=
  { clearedEngine with gameState := { clearedEngine.gameState with level := 0 } }

/-- A live block positioned at the top-left grid slot. -/
def liveBlockA : Block :=
  { position := { x := 35, y := 60 }, width := 80, height := 25,
    color := "#ff6b6b", destroyed := false, points := 30 }

/-- A second live block overlapping the same region. -/
def liveBlockB : Block :=
  { position := { x := 35, y := 60 }, width := 80, height := 25,
    color := "#feca57", destroyed := false, points := 20 }

/-- An engine state in which the ball overlaps the paddle while moving
straight down through the paddle center. -/
def paddleHitEngine : Engine :=
  { config := updateConfig 800 600,
    gameState :=
      { isRunning := true, isPaused := false, score := 0, lives := 3,
        level := 1,
        ball := trBall 400 560 0 3,
        paddle :=
          { position := { x := 350, y := 565 }, width := 100, height := 15,
            speed := 10, color := "#4ecdc4" },
        blocks := [] },
    controls := controls0,
    touchStartY := 0 }

end

/-! ### Reference-level model for the snapshot operation

The pure embedding above erases object identity, which is exactly what the
snapshot claim is about, so getGameState is modelled once more at the level
of references: a block array lives in a heap of arrays and the game state
holds its address.  The JavaScript object spread in getGameState
(gameEngine.ts lines 718-720) copies the fields of the record one by one;
for the blocks field the copied value is the address, not the array. -/

namespace RefModel

/-- The game-state record with its blocks field seen for what it is at run
time: a reference (heap address) to a mutable array. -/
structure GameStateRef where
  isRunning : Bool
  isPaused : Bool
  score : ℝ
  lives : ℤ
  level : ℕ
  ball : Ball
  paddle : Paddle
  blocks : ℕ

/-- A heap of block arrays, indexed by address. -/
structure BlockHeap where
  arrays : ℕ → List Block

/-- GameEngine.getGameState (gameEngine.ts lines 718-720): the object spread
copies every field value of the game state; the blocks field is an array
reference, so the address is copied while the array itself is shared. -/
def getGameState (g : GameStateRef) : GameStateRef :=
  { isRunning := g.isRunning, isPaused := g.isPaused, score := g.score,
    lives := g.lives, level := g.level, ball := g.ball, paddle := g.paddle,
    blocks := g.blocks }

/-- Dereference the blocks array of a game state in a heap. -/
def readBlocks (σ : BlockHeap) (g : GameStateRef) : List Block :=
  σ.arrays g.blocks

/-- A caller overwriting the blocks array reached through a game-state
record: the heap cell at that address changes. -/
def writeBlocks (σ : BlockHeap) (g : GameStateRef) (bs : List Block) : BlockHeap :=
  { arrays := fun a => if a = g.blocks then bs else σ.arrays a }

/-- A concrete engine-side game state whose blocks array lives at address 0. -/
noncomputable def engineSide : GameStateRef :=
  { isRunning := true, isPaused := false, score := 0, lives := 3, level := 1,
    ball := trBall 400 300 3 (-3),
    paddle := { position := { x := 350, y := 565 }, width := 100, height := 15,
                speed := 10, color := "#4ecdc4" },
    blocks := 0 }

/-- A live block, the engine-side content of the heap cell. -/
noncomputable def liveBlock : Block :=
  { position := { x := 35, y := 60 }, width := 80, height := 25,
    color := "#ff6b6b", destroyed := false, points := 30 }

/-- A concrete heap in which the block array of the engine at address 0
holds one live block. -/
noncomputable def heap0 : BlockHeap :=
  { arrays := fun _ => [liveBlock] }

end RefModel

end Breakout

namespace Breakout

/-! ### Helper lemmas about block generation -/

theorem mem_flatMap_range_map {α : Type} (R C : ℕ) (f : ℕ → ℕ → α) (x : α) :
    x ∈ (List.range R).flatMap (fun r => (List.range C).map (f r)) ↔
      ∃ r < R, ∃ c < C, x = f r c := by
  simp only [List.mem_flatMap, List.mem_map, List.mem_range]
  constructor
  · rintro ⟨r, hr, c, hc, rfl⟩
    exact ⟨r, hr, c, hc, rfl⟩
  · rintro ⟨r, hr, c, hc, rfl⟩
    exact ⟨r, hr, c, hc, rfl⟩

theorem flatMap_range_map_length {α : Type} (R C : ℕ) (f : ℕ → ℕ → α) :
    ((List.range R).flatMap (fun r => (List.range C).map (f r))).length = R * C := by
  induction R with
  | zero => simp
  | succ n ih => simp [List.range_succ, ih, Nat.succ_mul]

/-- Full characterization of the blocks produced by generateBlocks. -/
theorem generateBlocks_mem (config : GameConfig) (level : ℕ) (b : Block) :
    b ∈ generateBlocks config level ↔
      ∃ r < min (3 + level / 2) 8, ∃ c < (⌊(config.canvasWidth - 2 * 35) / (80 + 5)⌋ : ℤ).toNat,
        b = { position := { x := 35 + c * (80 + 5), y := 60 + r * (25 + 5) },
              width := 80, height := 25,
              color := blockColors[r % blockColors.length]!,
              destroyed := false,
              points := (((min (3 + level / 2) 8 : ℕ) : ℝ) - r) * 10 } := by
  unfold generateBlocks
  dsimp only
  exact mem_flatMap_range_map _ _ _ b

theorem generateBlocks_length (config : GameConfig) (level : ℕ) :
    (generateBlocks config level).length =
      (min (3 + level / 2) 8) * (⌊(config.canvasWidth - 2 * 35) / (80 + 5)⌋ : ℤ).toNat := by
  unfold generateBlocks
  dsimp only
  exact flatMap_range_map_length _ _ _

theorem generateBlocks_destroyed (config : GameConfig) (level : ℕ) :
    ∀ b ∈ generateBlocks config level, b.destroyed = false := by
  intro b hb
  rw [generateBlocks_mem] at hb
  obtain ⟨r, hr, c, hc, rfl⟩ := hb
  rfl

/-! ### C3: update is a no-op while paused or not running -/

/-- C3: for every state in which the running flag is false or the paused flag
is true, and for every deltaTime and control-state input (both part of the
engine value), the per-frame update leaves the entire game state, and indeed
the whole engine, unchanged. -/
theorem update_noop_when_inactive (dt : ℝ) (e : Engine)
    (h : e.gameState.isRunning = false ∨ e.gameState.isPaused = true) :
    update dt e = e := by
  unfold update
  exact if_pos h

theorem update_noop_when_inactive_witness :
    (mkEngine 800 600).gameState.isRunning = false ∧
    update 16 (mkEngine 800 600) = mkEngine 800 600 :=
  ⟨rfl, update_noop_when_inactive 16 (mkEngine 800 600) (Or.inl rfl)⟩

/-! ### C8: start is idempotent-safe -/

/-- C8: when the running flag is already true, start is silently ignored and
leaves the state unchanged (it is a total function, so no error occurs);
when the running flag is false, start sets running to true and paused to
false and changes nothing else. -/
theorem start_spec (e : Engine) :
    (e.gameState.isRunning = true → start e = e) ∧
    (e.gameState.isRunning = false →
      start e = { e with gameState :=
        { e.gameState with isRunning := true, isPaused := false } }) := by
  constructor
  · intro h
    unfold start
    rw [if_neg]
    simp [h]
  · intro h
    unfold start
    rw [if_pos h]

theorem start_spec_witness :
    (mkEngine 800 600).gameState.isRunning = false ∧
    start (mkEngine 800 600) =
      { mkEngine 800 600 with gameState :=
        { (mkEngine 800 600).gameState with isRunning := true, isPaused := false } } :=
  ⟨rfl, (start_spec (mkEngine 800 600)).2 rfl⟩

end Breakout

namespace Breakout

/-! ### C9: resize regenerates the grid and preserves counters and flags -/

/-- C9 (amended): resizing never changes score, lives, level or the two
flags; and for every state whose level counter is nonzero (which holds for
all states the engine constructs, since the level starts at 1 and only ever
increments), the resize regenerates the full grid for the current level, so
every block in the resulting collection is undestroyed. -/
theorem updateCanvasSize_spec (w h : ℝ) (e : Engine) :
    (updateCanvasSize w h e).gameState.score = e.gameState.score ∧
    (updateCanvasSize w h e).gameState.lives = e.gameState.lives ∧
    (updateCanvasSize w h e).gameState.level = e.gameState.level ∧
    (updateCanvasSize w h e).gameState.isRunning = e.gameState.isRunning ∧
    (updateCanvasSize w h e).gameState.isPaused = e.gameState.isPaused ∧
    (e.gameState.level ≠ 0 →
      (updateCanvasSize w h e).gameState.blocks =
        generateBlocks (updateConfig w h) e.gameState.level ∧
      ∀ b ∈ (updateCanvasSize w h e).gameState.blocks, b.destroyed = false) := by
  refine ⟨rfl, rfl, rfl, rfl, rfl, fun hl => ?_⟩
  have hblocks : (updateCanvasSize w h e).gameState.blocks =
      generateBlocks (updateConfig w h) e.gameState.level := by
    unfold updateCanvasSize
    dsimp only
    rw [if_pos hl]
  exact ⟨hblocks, by rw [hblocks]; exact generateBlocks_destroyed _ _⟩

theorem updateCanvasSize_spec_witness :
    (mkEngine 800 600).gameState.level ≠ 0 ∧
    ((updateCanvasSize 160 120 (mkEngine 800 600)).gameState.blocks =
        generateBlocks (updateConfig 160 120) (mkEngine 800 600).gameState.level ∧
      ∀ b ∈ (updateCanvasSize 160 120 (mkEngine 800 600)).gameState.blocks,
        b.destroyed = false) :=
  ⟨by decide, (updateCanvasSize_spec 160 120 (mkEngine 800 600)).2.2.2.2.2 (by decide)⟩

/-- C9 counterexample: on a state whose level counter is 0 (the one value
JavaScript treats as falsy), updateCanvasSize keeps the old block list, so a
destroyed block survives the resize, contradicting the claim as stated for
every state. -/
theorem updateCanvasSize_cex :
    levelZeroEngine.gameState.level = 0 ∧
    (updateCanvasSize 800 600 levelZeroEngine).gameState.blocks = [deadBlock] ∧
    deadBlock.destroyed = true := by
  refine ⟨rfl, ?_, rfl⟩
  unfold updateCanvasSize levelZeroEngine clearedEngine
  dsimp only
  rw [if_neg (by simp)]

/-! ### C2: the snapshot aliases the block array -/

/-- C2 (code bug): getGameState spreads the game-state object, so the
snapshot holds the same blocks-array address as the engine state; a caller
overwriting the array through the snapshot changes what the engine
subsequently reads, contrary to the claimed copy guarantee. -/
theorem getGameState_blocks_aliased :
    (RefModel.getGameState RefModel.engineSide).blocks = RefModel.engineSide.blocks ∧
    RefModel.readBlocks RefModel.heap0 RefModel.engineSide = [RefModel.liveBlock] ∧
    RefModel.readBlocks
        (RefModel.writeBlocks RefModel.heap0
          (RefModel.getGameState RefModel.engineSide) [deadBlock])
        RefModel.engineSide = [deadBlock] ∧
    RefModel.liveBlock.destroyed = false ∧
    deadBlock.destroyed = true := by
  refine ⟨rfl, rfl, ?_, rfl, rfl⟩
  unfold RefModel.readBlocks RefModel.writeBlocks RefModel.getGameState RefModel.engineSide
  simp

/-! ### C10: pointer coordinate dominates the paddle -/

theorem handleEvent_keyDown_touchX (e : Engine) (code : String) :
    (handleEvent e (.keyDown code)).controls.touchX = e.controls.touchX := by
  unfold handleEvent start pause resume
  dsimp only
  split_ifs <;> rfl

theorem handleEvent_keyUp_touchX (e : Engine) (code : String) :
    (handleEvent e (.keyUp code)).controls.touchX = e.controls.touchX := by
  unfold handleEvent
  dsimp only
  split_ifs <;> rfl

theorem handleEvent_click_touchX (e : Engine) :
    (handleEvent e .click).controls.touchX = e.controls.touchX := by
  unfold handleEvent start
  dsimp only
  split_ifs <;> rfl

theorem handleEvent_touchStart_touchX (e : Engine) (cx cy rl rw : ℝ) :
    (handleEvent e (.touchStart cx cy rl rw)).controls.touchX =
      some ((cx - rl) * (e.config.canvasWidth / rw)) := by
  unfold handleEvent start
  dsimp only
  split_ifs <;> rfl

theorem handleEvent_mouseMove_touchX (e : Engine) (cx rl rw : ℝ) :
    (handleEvent e (.mouseMove cx rl rw)).controls.touchX =
      some ((cx - rl) * (e.config.canvasWidth / rw)) := rfl

theorem handleEvent_touchMove_touchX (e : Engine) (ts : List ℝ) (rl rw : ℝ) :
    (handleEvent e (.touchMove ts rl rw)).controls.touchX =
      match ts with
      | [] => e.controls.touchX
      | t :: _ => some ((t - rl) * (e.config.canvasWidth / rw)) := by
  cases ts <;> rfl

theorem updatePaddle_touch (e : Engine) (t : ℝ) (h : e.controls.touchX = some t) :
    updatePaddle e = { e with gameState := { e.gameState with
      paddle := { e.gameState.paddle with
        position := { e.gameState.paddle.position with
          x := max 0 (min (e.config.canvasWidth - e.gameState.paddle.width)
                 (t - e.gameState.paddle.width / 2)) } } } } := by
  unfold updatePaddle
  rw [h]

theorem handleEvent_touchX_isSome (e : Engine) (ev : InputEvent)
    (hne : ev ≠ InputEvent.touchEnd) (h : e.controls.touchX.isSome = true) :
    (handleEvent e ev).controls.touchX.isSome = true := by
  cases ev with
  | keyDown code => rw [handleEvent_keyDown_touchX]; exact h
  | keyUp code => rw [handleEvent_keyUp_touchX]; exact h
  | click => rw [handleEvent_click_touchX]; exact h
  | touchStart cx cy rl rw => rw [handleEvent_touchStart_touchX]; rfl
  | mouseMove cx rl rw => rw [handleEvent_mouseMove_touchX]; rfl
  | touchMove ts rl rw =>
      rw [handleEvent_touchMove_touchX]
      cases ts with
      | nil => exact h
      | cons t ts => rfl
  | touchEnd => exact absurd rfl hne

/-- C10: a mouse-move event sets the pointer coordinate; an event whose
result has no pointer coordinate either started without one or was a
touch-end, so no mouse event ever clears it; while the pointer coordinate is
present the key flags have no effect on the paddle update and the paddle is
positioned from the pointer coordinate (clamped to the canvas); and the
pointer coordinate survives any event sequence free of touch-end events. -/
theorem pointer_priority_spec :
    (∀ (e : Engine) (cx rl rw : ℝ),
        (handleEvent e (.mouseMove cx rl rw)).controls.touchX =
          some ((cx - rl) * (e.config.canvasWidth / rw))) ∧
    (∀ (e : Engine) (ev : InputEvent),
        (handleEvent e ev).controls.touchX = none →
          e.controls.touchX = none ∨ ev = InputEvent.touchEnd) ∧
    (∀ (e : Engine) (t : ℝ), e.controls.touchX = some t →
        (∀ l r : Bool,
          (updatePaddle { e with controls :=
            { e.controls with leftPressed := l, rightPressed := r } }).gameState =
            (updatePaddle e).gameState) ∧
        (updatePaddle e).gameState.paddle.position.x =
          max 0 (min (e.config.canvasWidth - e.gameState.paddle.width)
            (t - e.gameState.paddle.width / 2))) ∧
    (∀ (e : Engine) (evs : List InputEvent),
        e.controls.touchX.isSome = true →
        (∀ ev ∈ evs, ev ≠ InputEvent.touchEnd) →
        ((evs.foldl handleEvent e).controls.touchX).isSome = true) := by
  refine ⟨handleEvent_mouseMove_touchX, ?_, ?_, ?_⟩
  · intro e ev h
    cases ev with
    | keyDown code => rw [handleEvent_keyDown_touchX] at h; exact Or.inl h
    | keyUp code => rw [handleEvent_keyUp_touchX] at h; exact Or.inl h
    | click => rw [handleEvent_click_touchX] at h; exact Or.inl h
    | touchStart cx cy rl rw => rw [handleEvent_touchStart_touchX] at h; cases h
    | mouseMove cx rl rw => rw [handleEvent_mouseMove_touchX] at h; cases h
    | touchMove ts rl rw =>
        rw [handleEvent_touchMove_touchX] at h
        cases ts with
        | nil => exact Or.inl h
        | cons t ts => cases h
    | touchEnd => exact Or.inr rfl
  · intro e t h
    constructor
    · intro l r
      have h2 : ({ e with controls :=
          { e.controls with leftPressed := l, rightPressed := r } } :
            Engine).controls.touchX = some t := h
      rw [updatePaddle_touch _ t h2, updatePaddle_touch e t h]
    · rw [updatePaddle_touch e t h]
  · intro e evs h hall
    induction evs generalizing e with
    | nil => exact h
    | cons ev evs ih =>
        exact ih (handleEvent e ev)
          (handleEvent_touchX_isSome e ev (hall ev (List.mem_cons_self ev evs)) h)
          (fun x hx => hall x (List.mem_cons_of_mem ev hx))

theorem pointer_priority_spec_witness :
    ({ mkEngine 800 600 with controls :=
        { leftPressed := false, rightPressed := false, touchX := some 100 } } :
          Engine).controls.touchX = some 100 ∧
    (updatePaddle { mkEngine 800 600 with controls :=
        { leftPressed := false, rightPressed := false, touchX := some 100 } }
      ).gameState.paddle.position.x =
      max 0 (min ((mkEngine 800 600).config.canvasWidth - 100) (100 - 100 / 2)) :=
  ⟨rfl, ((pointer_priority_spec.2.2.1 _ 100 rfl).2)⟩

end Breakout

namespace Breakout

/-! ### C5: paddle collision reflects upward at the configured speed -/

theorem scaled_velocity_speed (vx vy target : ℝ) (hvy : vy ≠ 0) (ht : 0 ≤ target) :
    speed { x := vx / Real.sqrt (vx ^ 2 + vy ^ 2) * target,
            y := vy / Real.sqrt (vx ^ 2 + vy ^ 2) * target } = target := by
  have hvy2 : 0 < vy ^ 2 := lt_of_le_of_ne (sq_nonneg vy) (Ne.symm (pow_ne_zero 2 hvy))
  have hpos : 0 < vx ^ 2 + vy ^ 2 := by nlinarith [sq_nonneg vx]
  have hsp : 0 < Real.sqrt (vx ^ 2 + vy ^ 2) := Real.sqrt_pos.mpr hpos
  have hsq : Real.sqrt (vx ^ 2 + vy ^ 2) ^ 2 = vx ^ 2 + vy ^ 2 := Real.sq_sqrt hpos.le
  unfold speed
  have key : (vx / Real.sqrt (vx ^ 2 + vy ^ 2) * target) ^ 2 +
      (vy / Real.sqrt (vx ^ 2 + vy ^ 2) * target) ^ 2 = target ^ 2 := by
    have hne : Real.sqrt (vx ^ 2 + vy ^ 2) ≠ 0 := ne_of_gt hsp
    field_simp
    nlinarith [hsq]
  rw [key, Real.sqrt_sq ht]

/-- C5: when the ball overlaps the paddle and is moving downward, the
paddle-collision step makes the vertical velocity strictly negative and the
resulting speed magnitude exactly the configured ball speed 6 (which every
derived configuration carries, independent of the level); the horizontal
component is the hit offset clamped to [-1, 1], scaled by 5 and then
renormalized together with the vertical component. -/
theorem paddleStep_bounce (e : Engine)
    (hb : e.config.ballSpeed = 6)
    (hc : isColliding e.gameState.ball e.gameState.paddle.position
            e.gameState.paddle.width e.gameState.paddle.height = true)
    (hv : e.gameState.ball.velocity.y > 0) :
    (∀ w h : ℝ, (updateConfig w h).ballSpeed = 6) ∧
    (paddleStep e).gameState.ball.velocity.y < 0 ∧
    speed (paddleStep e).gameState.ball.velocity = 6 ∧
    (let hitPos := max (-1) (min 1 ((e.gameState.ball.position.x -
          (e.gameState.paddle.position.x + e.gameState.paddle.width / 2)) /
          (e.gameState.paddle.width / 2)))
     let vy1 := -|e.gameState.ball.velocity.y|
     let sp := Real.sqrt (hitPos * 5 * (hitPos * 5) + vy1 * vy1)
     (paddleStep e).gameState.ball.velocity.x = hitPos * 5 / sp * 6 ∧
     (paddleStep e).gameState.ball.velocity.y = vy1 / sp * 6) := by
  have hcond : isColliding e.gameState.ball e.gameState.paddle.position
      e.gameState.paddle.width e.gameState.paddle.height = true ∧
      e.gameState.ball.velocity.y > 0 := ⟨hc, hv⟩
  unfold paddleStep
  rw [if_pos hcond, hb]
  dsimp only
  set hitPos := max (-1) (min 1 ((e.gameState.ball.position.x -
      (e.gameState.paddle.position.x + e.gameState.paddle.width / 2)) /
      (e.gameState.paddle.width / 2))) with hhit
  set vy1 := -|e.gameState.ball.velocity.y| with hvy1def
  set vx1 := hitPos * 5 with hvx1def
  have habs : 0 < |e.gameState.ball.velocity.y| := abs_pos.mpr (ne_of_gt hv)
  have hvy1neg : vy1 < 0 := by rw [hvy1def]; exact neg_neg_of_pos habs
  have hvy1ne : vy1 ≠ 0 := ne_of_lt hvy1neg
  have hmulpow : vx1 * vx1 + vy1 * vy1 = vx1 ^ 2 + vy1 ^ 2 := by ring
  have hpos : 0 < vx1 ^ 2 + vy1 ^ 2 := by
    have h2 : 0 < vy1 ^ 2 := lt_of_le_of_ne (sq_nonneg vy1) (Ne.symm (pow_ne_zero 2 hvy1ne))
    nlinarith [sq_nonneg vx1]
  have hsp : 0 < Real.sqrt (vx1 * vx1 + vy1 * vy1) := by
    rw [hmulpow]
    exact Real.sqrt_pos.mpr hpos
  refine ⟨fun w h => rfl, ?_, ?_, rfl, rfl⟩
  · exact mul_neg_of_neg_of_pos (div_neg_of_neg_of_pos hvy1neg hsp) (by norm_num)
  · have hkey := scaled_velocity_speed vx1 vy1 6 hvy1ne (by norm_num)
    rw [hmulpow]
    exact hkey

end Breakout

namespace Breakout

theorem paddleStep_bounce_witness :
    (paddleHitEngine.config.ballSpeed = 6 ∧
      isColliding paddleHitEngine.gameState.ball paddleHitEngine.gameState.paddle.position
        paddleHitEngine.gameState.paddle.width paddleHitEngine.gameState.paddle.height = true ∧
      paddleHitEngine.gameState.ball.velocity.y > 0) ∧
    (paddleStep paddleHitEngine).gameState.ball.velocity.y < 0 ∧
    speed (paddleStep paddleHitEngine).gameState.ball.velocity = 6 := by
  have hc : isColliding paddleHitEngine.gameState.ball paddleHitEngine.gameState.paddle.position
      paddleHitEngine.gameState.paddle.width paddleHitEngine.gameState.paddle.height = true := by
    unfold paddleHitEngine trBall isColliding
    dsimp only
    norm_num [abs_of_nonneg, abs_of_nonpos]
  have hv : paddleHitEngine.gameState.ball.velocity.y > 0 := by norm_num [paddleHitEngine, trBall]
  have h := paddleStep_bounce paddleHitEngine rfl hc hv
  exact ⟨⟨rfl, hc, hv⟩, h.2.1, h.2.2.1⟩

/-! ### C6: at most one block destroyed per frame, in stored order -/

theorem blockPass_no_hit (ball : Ball) (score : ℝ) (blocks : List Block)
    (h : ∀ b ∈ blocks, blockHit ball b = false) :
    blockPass ball score blocks = (ball, score, blocks) := by
  induction blocks with
  | nil => rfl
  | cons b rest ih =>
      unfold blockPass
      rw [if_neg (by simp [h b (List.mem_cons_self b rest)])]
      dsimp only
      rw [ih (fun x hx => h x (List.mem_cons_of_mem b hx))]

theorem blockPass_first (ball : Ball) (score : ℝ) (pre post : List Block) (b : Block)
    (hpre : ∀ x ∈ pre, blockHit ball x = false) (hb : blockHit ball b = true) :
    blockPass ball score (pre ++ b :: post) =
      (reflectBlock ball b, score + b.points, pre ++ { b with destroyed := true } :: post) := by
  induction pre with
  | nil =>
      simp only [List.nil_append]
      unfold blockPass
      rw [if_pos hb]
  | cons a pre ih =>
      simp only [List.cons_append]
      unfold blockPass
      rw [if_neg (by simp [hpre a (List.mem_cons_self a pre)])]
      dsimp only
      rw [ih (fun x hx => hpre x (List.mem_cons_of_mem a hx))]

theorem blockPass_countP (ball : Ball) (score : ℝ) (blocks : List Block) :
    ((blockPass ball score blocks).2.2.countP (fun b => b.destroyed)) ≤
      blocks.countP (fun b => b.destroyed) + 1 := by
  induction blocks with
  | nil => simp [blockPass]
  | cons b rest ih =>
      unfold blockPass
      split_ifs with h
      · dsimp only
        simp [List.countP_cons]
      · dsimp only
        simp only [List.countP_cons]
        omega

/-- C6: the block-collision loop of the per-frame update scans the blocks in
stored order; if no live block overlaps the ball it changes nothing; the
first live overlapping block, and only it, has its destroyed flag set, with
exactly its point value added to the score and the ball reflected off it;
blocks stored after it are returned untouched even if they also overlap; and
in all cases at most one additional block is destroyed. -/
theorem blockPass_single_destruction :
    (∀ (e : Engine), (checkCollisions e).gameState.blocks =
        (blockPass (paddleStep e).gameState.ball (paddleStep e).gameState.score
          (paddleStep e).gameState.blocks).2.2) ∧
    (∀ (ball : Ball) (score : ℝ) (blocks : List Block),
        ((blockPass ball score blocks).2.2.countP (fun b => b.destroyed)) ≤
          blocks.countP (fun b => b.destroyed) + 1) ∧
    (∀ (ball : Ball) (score : ℝ) (blocks : List Block),
        (∀ b ∈ blocks, blockHit ball b = false) →
        blockPass ball score blocks = (ball, score, blocks)) ∧
    (∀ (ball : Ball) (score : ℝ) (pre post : List Block) (b : Block),
        (∀ x ∈ pre, blockHit ball x = false) → blockHit ball b = true →
        blockPass ball score (pre ++ b :: post) =
          (reflectBlock ball b, score + b.points,
            pre ++ { b with destroyed := true } :: post)) :=
  ⟨fun _ => rfl, blockPass_countP, blockPass_no_hit, blockPass_first⟩

theorem blockPass_single_destruction_witness :
    blockHit (trBall 75 72 3 3) liveBlockA = true ∧
    blockHit (trBall 75 72 3 3) liveBlockB = true ∧
    blockPass (trBall 75 72 3 3) 0 ([] ++ liveBlockA :: [liveBlockB]) =
      (reflectBlock (trBall 75 72 3 3) liveBlockA, 0 + liveBlockA.points,
        [] ++ { liveBlockA with destroyed := true } :: [liveBlockB]) := by
  have hA : blockHit (trBall 75 72 3 3) liveBlockA = true := by
    unfold blockHit isColliding trBall liveBlockA
    dsimp only
    norm_num [abs_of_nonneg, abs_of_nonpos]
  have hB : blockHit (trBall 75 72 3 3) liveBlockB = true := by
    unfold blockHit isColliding trBall liveBlockB
    dsimp only
    norm_num [abs_of_nonneg, abs_of_nonpos]
  exact ⟨hA, hB, blockPass_single_destruction.2.2.2 _ 0 [] [liveBlockB] liveBlockA
    (by simp) hA⟩

end Breakout

namespace Breakout

/-! ### C7: deterministic block layout -/

/-- C7: block generation is a pure function of the configuration and level,
hence deterministic; it produces min(3 + level/2, 8) rows times
floor((width - 70)/85) columns of 80 by 25 blocks whose point value is
(rows - rowIndex) times 10; and at surface width 800, level 1, it produces
24 blocks (3 rows of 8), top-row blocks worth 30 points and bottom-row
blocks worth 10. -/
theorem generateBlocks_spec :
    (∀ (config : GameConfig) (level : ℕ),
        (generateBlocks config level).length =
          (min (3 + level / 2) 8) *
            (⌊(config.canvasWidth - 2 * 35) / (80 + 5)⌋ : ℤ).toNat) ∧
    (∀ (config : GameConfig) (level : ℕ) (b : Block),
        b ∈ generateBlocks config level ↔
          ∃ r < min (3 + level / 2) 8,
            ∃ c < (⌊(config.canvasWidth - 2 * 35) / (80 + 5)⌋ : ℤ).toNat,
              b = { position := { x := 35 + c * (80 + 5), y := 60 + r * (25 + 5) },
                    width := 80, height := 25,
                    color := blockColors[r % blockColors.length]!,
                    destroyed := false,
                    points := (((min (3 + level / 2) 8 : ℕ) : ℝ) - r) * 10 }) ∧
    (min (3 + (1 : ℕ) / 2) 8 = 3 ∧
      (⌊((updateConfig 800 600).canvasWidth - 2 * 35) / (80 + 5)⌋ : ℤ).toNat = 8 ∧
      (generateBlocks (updateConfig 800 600) 1).length = 24) ∧
    (∀ b ∈ generateBlocks (updateConfig 800 600) 1,
        b.width = 80 ∧ b.height = 25 ∧
        (b.position.y = 60 → b.points = 30) ∧
        (b.position.y = 60 + 2 * (25 + 5) → b.points = 10)) := by
  have hfloor : (⌊((updateConfig 800 600).canvasWidth - 2 * 35) / (80 + 5)⌋ : ℤ).toNat = 8 := by
    have : (⌊((updateConfig 800 600).canvasWidth - 2 * 35) / (80 + 5)⌋ : ℤ) = 8 := by
      rw [Int.floor_eq_iff]
      constructor
      · norm_num [updateConfig]
      · norm_num [updateConfig]
    rw [this]
    rfl
  refine ⟨generateBlocks_length, generateBlocks_mem, ⟨by norm_num, hfloor, ?_⟩, ?_⟩
  · rw [generateBlocks_length, hfloor]
    norm_num
  · intro b hb
    rw [generateBlocks_mem] at hb
    obtain ⟨r, hr, c, hc, rfl⟩ := hb
    have hmin : min (3 + (1 : ℕ) / 2) 8 = 3 := by norm_num
    rw [hmin] at hr
    rw [hmin]
    interval_cases r <;> norm_num

end Breakout

namespace Breakout

theorem generateBlocks_spec_witness :
    (generateBlocks (updateConfig 800 600) 1).length = 24 ∧
    ∃ b ∈ generateBlocks (updateConfig 800 600) 1, b.position.y = 60 ∧ b.points = 30 := by
  refine ⟨generateBlocks_spec.2.2.1.2.2, ?_⟩
  have hfloor := generateBlocks_spec.2.2.1.2.1
  refine ⟨_, (generateBlocks_spec.2.1 (updateConfig 800 600) 1 _).mpr
    ⟨0, by norm_num, 0, by rw [hfloor]; norm_num, rfl⟩, by norm_num, by norm_num⟩

end Breakout

namespace Breakout

/-! ### Field-preservation lemmas for the update pipeline -/

theorem updatePaddle_blocks (e : Engine) :
    (updatePaddle e).gameState.blocks = e.gameState.blocks := rfl

theorem updatePaddle_level (e : Engine) :
    (updatePaddle e).gameState.level = e.gameState.level := rfl

theorem updatePaddle_config (e : Engine) : (updatePaddle e).config = e.config := rfl

theorem updatePaddle_ball (e : Engine) :
    (updatePaddle e).gameState.ball = e.gameState.ball := rfl

theorem updatePaddle_paddle_y (e : Engine) :
    (updatePaddle e).gameState.paddle.position.y = e.gameState.paddle.position.y := rfl

theorem updatePaddle_paddle_width (e : Engine) :
    (updatePaddle e).gameState.paddle.width = e.gameState.paddle.width := rfl

theorem updateBall_blocks (e : Engine) :
    (updateBall e).gameState.blocks = e.gameState.blocks := by
  unfold updateBall loseLife resetBall gameOver
  dsimp only
  split_ifs <;> rfl

theorem updateBall_level (e : Engine) :
    (updateBall e).gameState.level = e.gameState.level := by
  unfold updateBall loseLife resetBall gameOver
  dsimp only
  split_ifs <;> rfl

theorem updateBall_config (e : Engine) : (updateBall e).config = e.config := by
  unfold updateBall loseLife resetBall gameOver
  dsimp only
  split_ifs <;> rfl

theorem updateBall_paddle (e : Engine) :
    (updateBall e).gameState.paddle = e.gameState.paddle := by
  unfold updateBall loseLife resetBall gameOver
  dsimp only
  split_ifs <;> rfl

theorem updateBall_radius (e : Engine) :
    (updateBall e).gameState.ball.radius = e.gameState.ball.radius := by
  unfold updateBall loseLife resetBall gameOver
  dsimp only
  split_ifs <;> rfl

theorem paddleStep_blocks (e : Engine) :
    (paddleStep e).gameState.blocks = e.gameState.blocks := by
  unfold paddleStep
  dsimp only
  split_ifs <;> rfl

theorem paddleStep_level (e : Engine) :
    (paddleStep e).gameState.level = e.gameState.level := by
  unfold paddleStep
  dsimp only
  split_ifs <;> rfl

theorem paddleStep_config (e : Engine) : (paddleStep e).config = e.config := by
  unfold paddleStep
  dsimp only
  split_ifs <;> rfl

theorem paddleStep_paddle (e : Engine) :
    (paddleStep e).gameState.paddle = e.gameState.paddle := by
  unfold paddleStep
  dsimp only
  split_ifs <;> rfl

theorem paddleStep_radius (e : Engine) :
    (paddleStep e).gameState.ball.radius = e.gameState.ball.radius := by
  unfold paddleStep
  dsimp only
  split_ifs <;> rfl

theorem blockStep_level (e : Engine) :
    (blockStep e).gameState.level = e.gameState.level := rfl

theorem blockStep_config (e : Engine) : (blockStep e).config = e.config := rfl

theorem blockStep_paddle (e : Engine) :
    (blockStep e).gameState.paddle = e.gameState.paddle := rfl

theorem blockStep_blocks (e : Engine) :
    (blockStep e).gameState.blocks =
      (blockPass e.gameState.ball e.gameState.score e.gameState.blocks).2.2 := rfl

theorem blockStep_ball (e : Engine) :
    (blockStep e).gameState.ball =
      (blockPass e.gameState.ball e.gameState.score e.gameState.blocks).1 := rfl

theorem checkGameOver_blocks (e : Engine) :
    (checkGameOver e).gameState.blocks = e.gameState.blocks := by
  unfold checkGameOver gameOver
  split_ifs <;> rfl

theorem checkGameOver_level (e : Engine) :
    (checkGameOver e).gameState.level = e.gameState.level := by
  unfold checkGameOver gameOver
  split_ifs <;> rfl

theorem checkGameOver_config (e : Engine) : (checkGameOver e).config = e.config := by
  unfold checkGameOver gameOver
  split_ifs <;> rfl

theorem checkGameOver_paddle (e : Engine) :
    (checkGameOver e).gameState.paddle = e.gameState.paddle := by
  unfold checkGameOver gameOver
  split_ifs <;> rfl

theorem checkGameOver_ball (e : Engine) :
    (checkGameOver e).gameState.ball = e.gameState.ball := by
  unfold checkGameOver gameOver
  split_ifs <;> rfl

theorem checkGameOver_lives (e : Engine) :
    (checkGameOver e).gameState.lives = e.gameState.lives := by
  unfold checkGameOver gameOver
  split_ifs <;> rfl

theorem blockHit_of_destroyed (ball : Ball) (b : Block) (h : b.destroyed = true) :
    blockHit ball b = false := by
  unfold blockHit
  rw [h]
  rfl

/-- The nextLevel step in closed form: level bumped, grid regenerated, ball
recentered over the paddle, velocity equal to the reset velocity (3, -3)
rescaled from its own magnitude to that magnitude plus 0.2. -/
theorem nextLevel_spec (e : Engine) :
    (nextLevel e).gameState.level = e.gameState.level + 1 ∧
    (nextLevel e).gameState.blocks = generateBlocks e.config (e.gameState.level + 1) ∧
    (nextLevel e).gameState.paddle = e.gameState.paddle ∧
    (nextLevel e).gameState.lives = e.gameState.lives ∧
    (nextLevel e).gameState.score = e.gameState.score ∧
    (nextLevel e).gameState.isRunning = e.gameState.isRunning ∧
    (nextLevel e).gameState.ball.position =
      ⟨e.gameState.paddle.position.x + e.gameState.paddle.width / 2,
       e.gameState.paddle.position.y - e.gameState.ball.radius - 5⟩ ∧
    (nextLevel e).gameState.ball.velocity =
      ⟨3 / Real.sqrt ((3 : ℝ) ^ 2 + (-3 : ℝ) ^ 2) *
         (Real.sqrt ((3 : ℝ) ^ 2 + (-3 : ℝ) ^ 2) + 0.2),
       -3 / Real.sqrt ((3 : ℝ) ^ 2 + (-3 : ℝ) ^ 2) *
         (Real.sqrt ((3 : ℝ) ^ 2 + (-3 : ℝ) ^ 2) + 0.2)⟩ := by
  unfold nextLevel resetBall
  dsimp only
  exact ⟨rfl, rfl, rfl, rfl, rfl, rfl, rfl, rfl⟩

end Breakout

namespace Breakout

/-! ### C1: level transition -/

/-- Auxiliary form of the level-transition property, shared by the claim
theorem and its counterexample: for a running, unpaused state whose blocks
are all destroyed, the per-frame update increments the level by exactly one,
regenerates the grid for the new level, recenters the ball over the paddle,
and sets its velocity to the reset velocity (3, -3) rescaled to magnitude
sqrt 18 + 0.2. -/
theorem update_levelTransition_aux (dt : ℝ) (e : Engine)
    (hblocks : (e.gameState.blocks.filter (fun b => !b.destroyed)).length = 0)
    (hrun : e.gameState.isRunning = true)
    (hpause : e.gameState.isPaused = false) :
    (update dt e).gameState.level = e.gameState.level + 1 ∧
    (update dt e).gameState.blocks = generateBlocks e.config (e.gameState.level + 1) ∧
    (update dt e).gameState.ball.position =
      ⟨(update dt e).gameState.paddle.position.x + e.gameState.paddle.width / 2,
       e.gameState.paddle.position.y - e.gameState.ball.radius - 5⟩ ∧
    (update dt e).gameState.ball.velocity =
      ⟨3 / Real.sqrt 18 * (Real.sqrt 18 + 0.2),
       -3 / Real.sqrt 18 * (Real.sqrt 18 + 0.2)⟩ ∧
    speed (update dt e).gameState.ball.velocity = Real.sqrt 18 + 0.2 := by
  have hdes : ∀ b ∈ e.gameState.blocks, b.destroyed = true := by
    intro b hb
    have hnil : e.gameState.blocks.filter (fun b => !b.destroyed) = [] :=
      List.length_eq_zero.mp hblocks
    have hnp := List.filter_eq_nil.mp hnil b hb
    revert hnp
    cases b.destroyed <;> simp
  set e1 := updatePaddle e with he1
  set e2 := updateBall e1 with he2
  set e3 := paddleStep e2 with he3
  set e4 := blockStep e3 with he4
  set e5 := checkGameOver e4 with he5
  have hup : update dt e = checkLevelComplete e5 := by
    unfold update checkCollisions
    rw [if_neg (by rw [hrun, hpause]; simp)]
  -- blocks are preserved down the pipeline and stay all-destroyed
  have hb3 : e3.gameState.blocks = e.gameState.blocks := by
    rw [he3, paddleStep_blocks, he2, updateBall_blocks, he1, updatePaddle_blocks]
  have hnohit : ∀ b ∈ e3.gameState.blocks, blockHit e3.gameState.ball b = false := by
    intro b hb
    exact blockHit_of_destroyed _ b (hdes b (hb3 ▸ hb))
  have hpass : blockPass e3.gameState.ball e3.gameState.score e3.gameState.blocks =
      (e3.gameState.ball, e3.gameState.score, e3.gameState.blocks) :=
    blockPass_no_hit _ _ _ hnohit
  have hb4 : e4.gameState.blocks = e.gameState.blocks := by
    rw [he4, blockStep_blocks, hpass]
    exact hb3
  have hball4 : e4.gameState.ball = e3.gameState.ball := by
    rw [he4, blockStep_ball, hpass]
  have hb5 : e5.gameState.blocks = e.gameState.blocks := by
    rw [he5, checkGameOver_blocks]
    exact hb4
  -- the level check fires
  have hfilter : (e5.gameState.blocks.filter (fun b => !b.destroyed)).length = 0 := by
    rw [hb5]
    exact hblocks
  have hcl : checkLevelComplete e5 = nextLevel e5 := by
    unfold checkLevelComplete
    rw [if_pos hfilter]
  -- transported fields
  have hlvl5 : e5.gameState.level = e.gameState.level := by
    rw [he5, checkGameOver_level, he4, blockStep_level, he3, paddleStep_level, he2,
      updateBall_level, he1, updatePaddle_level]
  have hcfg5 : e5.config = e.config := by
    rw [he5, checkGameOver_config, he4, blockStep_config, he3, paddleStep_config, he2,
      updateBall_config, he1, updatePaddle_config]
  have hpad5 : e5.gameState.paddle = e1.gameState.paddle := by
    rw [he5, checkGameOver_paddle, he4, blockStep_paddle, he3, paddleStep_paddle, he2,
      updateBall_paddle]
  have hrad5 : e5.gameState.ball.radius = e.gameState.ball.radius := by
    rw [he5, checkGameOver_ball, hball4, he3, paddleStep_radius, he2, updateBall_radius,
      he1, updatePaddle_ball]
  have hnl := nextLevel_spec e5
  have h18 : ((3 : ℝ) ^ 2 + (-3 : ℝ) ^ 2) = 18 := by norm_num
  rw [hup, hcl]
  refine ⟨?_, ?_, ?_, ?_, ?_⟩
  · rw [hnl.1, hlvl5]
  · rw [hnl.2.1, hcfg5, hlvl5]
  · rw [hnl.2.2.2.2.2.2.1, hnl.2.2.1, hpad5, hrad5]
    rw [updatePaddle_paddle_y, updatePaddle_paddle_width]
  · rw [hnl.2.2.2.2.2.2.2]
    rw [h18]
  · rw [hnl.2.2.2.2.2.2.2, h18]
    have hs := scaled_velocity_speed 3 (-3) (Real.sqrt 18 + 0.2) (by norm_num)
      (by positivity)
    rw [h18] at hs
    exact hs

end Breakout

namespace Breakout

/-- C1 (amended): for every running, unpaused state in which all blocks are
destroyed, the per-frame update performs exactly one level transition: the
level counter increments by 1, the block grid is regenerated for the new
level, and the ball position AND velocity are both reset — the velocity to
(3, -3) — before the 0.2 speed increase is applied, so the speed magnitude
after the transition is the magnitude of the reset velocity plus 0.2, that
is sqrt 18 + 0.2, with the direction of the reset velocity (not the
magnitude and direction the ball had immediately before the transition). -/
theorem update_levelTransition (dt : ℝ) (e : Engine)
    (hblocks : (e.gameState.blocks.filter (fun b => !b.destroyed)).length = 0)
    (hrun : e.gameState.isRunning = true)
    (hpause : e.gameState.isPaused = false) :
    (update dt e).gameState.level = e.gameState.level + 1 ∧
    (update dt e).gameState.blocks = generateBlocks e.config (e.gameState.level + 1) ∧
    (update dt e).gameState.ball.position =
      ⟨(update dt e).gameState.paddle.position.x + e.gameState.paddle.width / 2,
       e.gameState.paddle.position.y - e.gameState.ball.radius - 5⟩ ∧
    (update dt e).gameState.ball.velocity =
      ⟨3 / Real.sqrt 18 * (Real.sqrt 18 + 0.2),
       -3 / Real.sqrt 18 * (Real.sqrt 18 + 0.2)⟩ ∧
    speed (update dt e).gameState.ball.velocity = Real.sqrt 18 + 0.2 :=
  update_levelTransition_aux dt e hblocks hrun hpause

theorem update_levelTransition_witness :
    ((clearedRunning.gameState.blocks.filter (fun b => !b.destroyed)).length = 0 ∧
      clearedRunning.gameState.isRunning = true ∧
      clearedRunning.gameState.isPaused = false) ∧
    ((update 16 clearedRunning).gameState.level = clearedRunning.gameState.level + 1 ∧
      speed (update 16 clearedRunning).gameState.ball.velocity = Real.sqrt 18 + 0.2) := by
  have h := update_levelTransition 16 clearedRunning rfl rfl rfl
  exact ⟨⟨rfl, rfl, rfl⟩, h.1, h.2.2.2.2⟩

/-- C1 counterexample: a concrete running state whose blocks are all
destroyed and whose ball has speed 6; after the per-frame update the speed
magnitude is sqrt 18 + 0.2, which differs from the pre-transition magnitude
plus 0.2, because nextLevel resets the velocity to (3, -3) before adding
the increment. -/
theorem update_levelTransition_cex :
    (clearedRunning.gameState.blocks.filter (fun b => !b.destroyed)).length = 0 ∧
    clearedRunning.gameState.isRunning = true ∧
    clearedRunning.gameState.isPaused = false ∧
    speed clearedRunning.gameState.ball.velocity = 6 ∧
    speed (update 16 clearedRunning).gameState.ball.velocity ≠
      speed clearedRunning.gameState.ball.velocity + 0.2 := by
  have haux := update_levelTransition_aux 16 clearedRunning rfl rfl rfl
  have hbefore : speed clearedRunning.gameState.ball.velocity = 6 := by
    show Real.sqrt ((6 : ℝ) ^ 2 + (0 : ℝ) ^ 2) = 6
    rw [show ((6 : ℝ) ^ 2 + (0 : ℝ) ^ 2) = 6 ^ 2 by norm_num,
      Real.sqrt_sq (by norm_num : (0 : ℝ) ≤ 6)]
  refine ⟨rfl, rfl, rfl, hbefore, ?_⟩
  rw [haux.2.2.2.2, hbefore]
  intro hcontra
  have h18 : Real.sqrt 18 = 6 := by linarith
  have hsq := Real.sq_sqrt (by norm_num : (0 : ℝ) ≤ 18)
  rw [h18] at hsq
  norm_num at hsq

end Breakout

namespace Breakout

/-! ### Step lemmas used to run the engine on concrete states -/

theorem updatePaddle_id (e : Engine) (h1 : e.controls = controls0)
    (h2 : max 0 (min (e.config.canvasWidth - e.gameState.paddle.width)
            e.gameState.paddle.position.x) = e.gameState.paddle.position.x) :
    updatePaddle e = e := by
  obtain ⟨cfg, gs, ctr, ty⟩ := e
  obtain ⟨run, pau, sc, lv, lvl, ball, pad, blks⟩ := gs
  obtain ⟨pos, w, ht, sp, col⟩ := pad
  obtain ⟨px, py⟩ := pos
  dsimp only at h1 h2
  subst h1
  unfold updatePaddle controls0
  dsimp only
  simp only [if_neg (show ¬(false = true) by simp)]
  rw [h2]

theorem paddleStep_id (e : Engine)
    (h : ¬(isColliding e.gameState.ball e.gameState.paddle.position
        e.gameState.paddle.width e.gameState.paddle.height = true ∧
        e.gameState.ball.velocity.y > 0)) :
    paddleStep e = e := by
  unfold paddleStep
  rw [if_neg h]

theorem blockStep_id_of_no_hit (e : Engine)
    (h : ∀ b ∈ e.gameState.blocks, blockHit e.gameState.ball b = false) :
    blockStep e = e := by
  unfold blockStep
  rw [blockPass_no_hit _ _ _ h]

theorem checkGameOver_id (e : Engine) (h : ¬(e.gameState.lives ≤ 0)) :
    checkGameOver e = e := by
  unfold checkGameOver
  rw [if_neg h]

theorem checkGameOver_fire (e : Engine) (h : e.gameState.lives ≤ 0) :
    checkGameOver e = gameOver e := by
  unfold checkGameOver
  rw [if_pos h]

theorem checkLevelComplete_id (e : Engine)
    (h : ¬(e.gameState.blocks.filter (fun b => !b.destroyed)).length = 0) :
    checkLevelComplete e = e := by
  unfold checkLevelComplete
  rw [if_neg h]

theorem blocks160_cols :
    (⌊((updateConfig 160 120).canvasWidth - 2 * 35) / (80 + 5)⌋ : ℤ) = 1 := by
  rw [Int.floor_eq_iff]
  constructor
  · norm_num [updateConfig]
  · norm_num [updateConfig]

theorem blocks160_no_hit (ball : Ball) (hy : ball.position.y ≥ 174)
    (hrad : ball.radius = 8) :
    ∀ b ∈ blocks160, blockHit ball b = false := by
  intro b hb
  unfold blocks160 at hb
  rw [generateBlocks_mem] at hb
  obtain ⟨r, hr, c, hc, rfl⟩ := hb
  have hr3 : r < 3 := by
    have hmin : min (3 + (1 : ℕ) / 2) 8 = 3 := by norm_num
    omega
  have hrow : ((r : ℝ)) ≤ 2 := by
    have : r ≤ 2 := by omega
    exact_mod_cast this
  unfold blockHit isColliding
  dsimp only
  split_ifs with h1 h2
  · rfl
  · rfl
  all_goals exfalso
  all_goals apply h2
  all_goals rw [hrad]
  all_goals have hle := le_abs_self (ball.position.y - (60 + (r : ℝ) * (25 + 5)) - 25 / 2)
  all_goals linarith

theorem blocks160_filter_length :
    (blocks160.filter (fun b => !b.destroyed)).length = 3 := by
  have hall : ∀ b ∈ blocks160, (fun b => !b.destroyed) b = true := by
    intro b hb
    have hd := generateBlocks_destroyed (updateConfig 160 120) 1 b hb
    simp [hd]
  rw [List.filter_eq_self.mpr hall]
  unfold blocks160
  rw [generateBlocks_length, blocks160_cols]
  norm_num

end Breakout

namespace Breakout

theorem updateBall_s2 :
    updateBall (trState true 3 (trBall 152 552 3 (-3))) =
      trState true 2 (trBall 110 552 3 (-3)) := by
  unfold updateBall loseLife resetBall gameOver trState trBall trPaddle updateConfig
  dsimp only
  norm_num

theorem updateBall_s3 :
    updateBall (trState true 2 (trBall 110 552 3 (-3))) =
      trState true 1 (trBall 110 552 3 (-3)) := by
  unfold updateBall loseLife resetBall gameOver trState trBall trPaddle updateConfig
  dsimp only
  norm_num

theorem updateBall_s4 :
    updateBall (trState true 1 (trBall 110 552 3 (-3))) =
      trState false 0 (trBall 113 549 3 (-3)) := by
  unfold updateBall loseLife resetBall gameOver trState trBall trPaddle updateConfig
  dsimp only
  norm_num

theorem updateBall_s6 :
    updateBall (trState true 0 (trBall 113 549 3 (-3))) =
      trState false (-1) (trBall 116 546 3 (-3)) := by
  unfold updateBall loseLife resetBall gameOver trState trBall trPaddle updateConfig
  dsimp only
  norm_num

end Breakout

namespace Breakout

theorem resize_s1 :
    updateCanvasSize 160 120 (mkEngine 800 600) =
      trState false 3 (trBall 152 552 3 (-3)) := by
  unfold updateCanvasSize mkEngine initializeGame updateConfig trState trBall trPaddle
    controls0 blocks160
  dsimp only
  rw [if_pos (by norm_num)]
  norm_num [updateConfig]

theorem click_start (run : Bool) (lv : ℤ) (b : Ball) (h : run = false) :
    handleEvent (trState run lv b) .click = trState true lv b := by
  subst h
  unfold handleEvent start trState
  dsimp only
  rw [if_pos rfl, if_pos rfl]

theorem update_s2 :
    update 16 (trState true 3 (trBall 152 552 3 (-3))) =
      trState true 2 (trBall 110 552 3 (-3)) := by
  unfold update checkCollisions
  rw [if_neg (by norm_num [trState])]
  rw [updatePaddle_id _ rfl (by norm_num [trState, trPaddle, updateConfig]),
    updateBall_s2,
    paddleStep_id _ (by rintro ⟨-, hv⟩; norm_num [trState, trBall] at hv),
    blockStep_id_of_no_hit _ (blocks160_no_hit _ (by norm_num [trState, trBall])
      (by norm_num [trState, trBall])),
    checkGameOver_id _ (by norm_num [trState]),
    checkLevelComplete_id _ (by rw [show (trState true 2 (trBall 110 552 3 (-3))).gameState.blocks
      = blocks160 from rfl, blocks160_filter_length]; norm_num)]

theorem update_s3 :
    update 16 (trState true 2 (trBall 110 552 3 (-3))) =
      trState true 1 (trBall 110 552 3 (-3)) := by
  unfold update checkCollisions
  rw [if_neg (by norm_num [trState])]
  rw [updatePaddle_id _ rfl (by norm_num [trState, trPaddle, updateConfig]),
    updateBall_s3,
    paddleStep_id _ (by rintro ⟨-, hv⟩; norm_num [trState, trBall] at hv),
    blockStep_id_of_no_hit _ (blocks160_no_hit _ (by norm_num [trState, trBall])
      (by norm_num [trState, trBall])),
    checkGameOver_id _ (by norm_num [trState]),
    checkLevelComplete_id _ (by rw [show (trState true 1 (trBall 110 552 3 (-3))).gameState.blocks
      = blocks160 from rfl, blocks160_filter_length]; norm_num)]

theorem update_s4 :
    update 16 (trState true 1 (trBall 110 552 3 (-3))) =
      trState false 0 (trBall 113 549 3 (-3)) := by
  unfold update checkCollisions
  rw [if_neg (by norm_num [trState])]
  rw [updatePaddle_id _ rfl (by norm_num [trState, trPaddle, updateConfig]),
    updateBall_s4,
    paddleStep_id _ (by rintro ⟨-, hv⟩; norm_num [trState, trBall] at hv),
    blockStep_id_of_no_hit _ (blocks160_no_hit _ (by norm_num [trState, trBall])
      (by norm_num [trState, trBall])),
    checkGameOver_fire _ (by norm_num [trState]),
    show gameOver (trState false 0 (trBall 113 549 3 (-3))) =
      trState false 0 (trBall 113 549 3 (-3)) from rfl,
    checkLevelComplete_id _ (by rw [show (trState false 0 (trBall 113 549 3 (-3))).gameState.blocks
      = blocks160 from rfl, blocks160_filter_length]; norm_num)]

theorem update_s6 :
    update 16 (trState true 0 (trBall 113 549 3 (-3))) =
      trState false (-1) (trBall 116 546 3 (-3)) := by
  unfold update checkCollisions
  rw [if_neg (by norm_num [trState])]
  rw [updatePaddle_id _ rfl (by norm_num [trState, trPaddle, updateConfig]),
    updateBall_s6,
    paddleStep_id _ (by rintro ⟨-, hv⟩; norm_num [trState, trBall] at hv),
    blockStep_id_of_no_hit _ (blocks160_no_hit _ (by norm_num [trState, trBall])
      (by norm_num [trState, trBall])),
    checkGameOver_fire _ (by norm_num [trState]),
    show gameOver (trState false (-1) (trBall 116 546 3 (-3))) =
      trState false (-1) (trBall 116 546 3 (-3)) from rfl,
    checkLevelComplete_id _ (by rw [show (trState false (-1) (trBall 116 546 3 (-3))).gameState.blocks
      = blocks160 from rfl, blocks160_filter_length]; norm_num)]

/-! ### C4: the lives invariant is violated by a reachable state -/

/-- C4 (code bug): an engine built on an 800 by 600 canvas, resized by the
host to 160 by 120, started by a click, loses its three lives in three
frames (the ball and paddle now sit below the bottom of the shrunken
canvas) and reaches game over; a further click restarts the run with lives
still 0, and the next per-frame update decrements lives to -1 — a reachable
state with lives ≥ 0 whose update drives lives strictly below 0,
contradicting the claimed invariant. -/
theorem reachable_negative_lives :
    Reachable (trState true 0 (trBall 113 549 3 (-3))) ∧
    (trState true 0 (trBall 113 549 3 (-3))).gameState.lives = 0 ∧
    (update 16 (trState true 0 (trBall 113 549 3 (-3)))).gameState.lives = -1 := by
  refine ⟨?_, rfl, ?_⟩
  · have r0 : Reachable (mkEngine 800 600) :=
      Reachable.construct 800 600 (by norm_num) (by norm_num)
    have r1 : Reachable (trState false 3 (trBall 152 552 3 (-3))) :=
      resize_s1 ▸ Reachable.step_resize 160 120 _ (by norm_num) (by norm_num) r0
    have r2 : Reachable (trState true 3 (trBall 152 552 3 (-3))) :=
      click_start false 3 _ rfl ▸ Reachable.step_event .click _ r1
    have r3 : Reachable (trState true 2 (trBall 110 552 3 (-3))) :=
      update_s2 ▸ Reachable.step_update 16 _ r2
    have r4 : Reachable (trState true 1 (trBall 110 552 3 (-3))) :=
      update_s3 ▸ Reachable.step_update 16 _ r3
    have r5 : Reachable (trState false 0 (trBall 113 549 3 (-3))) :=
      update_s4 ▸ Reachable.step_update 16 _ r4
    exact click_start false 0 _ rfl ▸ Reachable.step_event .click _ r5
  · rw [update_s6]
    rfl

end Breakout
